import Mathlib

/-!
# Stasis idle-management core: shallow embedding and verification

This file embeds, as executable Lean definitions, the parts of the Stasis
idle-management daemon that the verified claims are about:

* the action data model (`IdleActionBlock`, `IdleAction`),
* the `ActionQueue` component (`src/core/manager/action_queue.rs`),
* the `ManagerState` / `Manager` functions of the mod.rs family
  (`src/core/manager/mod.rs`, `helpers.rs`, `inhibitors.rs`, `state.rs`),
* the event router (`src/core/events/handlers.rs`).

Timestamps (`std::time::Instant`) are modelled as natural numbers (a
monotonic clock); `Duration::from_secs` is addition on those numbers;
`Instant::duration_since` saturates at zero exactly like truncated `Nat`
subtraction.  Side effects (spawning processes, notifications, sleeps,
notifier kicks) are reified into an explicit `Effect` list returned next to
the new state; results of the external probes that the code consults
(logind lock probe, process liveness, current backlight brightness) are
passed in through an `Env` record.

`src/config/model.rs` is not part of the source snapshot (only its users
are), so the definitions of the action record and of `is_instant` are
modelled from the specification, as marked in their doc comments.
-/

namespace Stasis

/-- Modelled from the spec: the closed action-kind set
{LockScreen, Suspend, Dpms, Brightness, Custom} (`config/model.rs`, which
declares `IdleAction`, is not in the source snapshot; the variants are those
matched on throughout `src/core`). -/
inductive IdleAction where
  | lockScreen
  | suspend
  | dpms
  | brightness
  | custom
deriving DecidableEq

/-- Modelled from the spec: the fields of an action record
(`config/model.rs`, which declares `IdleActionBlock`, is not in the source
snapshot; the fields are the ones built by `config/parser.rs` and read by
`src/core`).  `last_triggered` is an optional timestamp. -/
structure IdleActionBlock where
  name : String
  kind : IdleAction
  timeout : Nat
  command : String
  lock_command : Option String := none
  resume_command : Option String := none
  notification : Option String := none
  last_triggered : Option Nat := none
deriving DecidableEq

/-- Modelled from the spec: `timeout_secs == 0` marks an instant action
(`is_instant` is declared in the missing `config/model.rs`; spec section 3). -/
def IdleActionBlock.is_instant (a : IdleActionBlock) : Bool :=
  a.timeout == 0

/-- Test whether the first list is an initial segment of the second. -/
def listStarts : List Char → List Char → Bool
  | [], _ => true
  | _ :: _, [] => false
  | p :: ps, c :: cs => p == c && listStarts ps cs

/-- Test whether the first list occurs contiguously inside the second. -/
def listContains (p : List Char) : List Char → Bool
  | [] => p.isEmpty
  | c :: cs => listStarts p (c :: cs) || listContains p cs

/-- Embeds `str::contains` on string slices (substring containment). -/
def containsSubstr (s pat : String) : Bool :=
  listContains pat.toList s.toList

/-- The literal the lock paths test for (`helpers.rs`). -/
def loginctlStr : String := "loginctl lock-session"

/-!
## ActionQueue (`src/core/manager/action_queue.rs`)

`pending_notification_task` holds a `JoinHandle` in the source; only its
presence is observable, so it is modelled as a `Bool`.
-/

structure ActionQueue where
  default_actions : List IdleActionBlock
  ac_actions : List IdleActionBlock
  battery_actions : List IdleActionBlock
  current_block : String
  action_index : Nat
  instants_triggered : Bool
  resume_queue : List IdleActionBlock
  resume_commands_fired : Bool
  pending_notification_task : Bool
  notification_sent_for_action : Option Nat
deriving DecidableEq

/-- Embeds `ActionQueue::get_active_actions` (action_queue.rs:88). -/
def ActionQueue.get_active_actions (q : ActionQueue) : List IdleActionBlock :=
  match q.current_block with
  | "ac" => q.ac_actions
  | "battery" => q.battery_actions
  | "default" => q.default_actions
  | _ => q.default_actions

/-- Embeds `ActionQueue::determine_block` (action_queue.rs:140). -/
def ActionQueue.determine_block (q : ActionQueue) (on_battery : Bool) : String :=
  if on_battery then
    if !q.battery_actions.isEmpty then "battery" else "default"
  else
    if !q.ac_actions.isEmpty then "ac" else "default"

/-- One block of `ActionQueue::clear_triggered_before_lock`
(action_queue.rs:163): walk in order carrying the `past_lock` flag, which is
set *at* the LockScreen action, before the preserve check. -/
def clearTriggeredList (is_locked : Bool) (past_lock : Bool) :
    List IdleActionBlock → List IdleActionBlock
  | [] => []
  | a :: rest =>
    let past_lock := past_lock || (a.kind == IdleAction.lockScreen)
    let a :=
      if is_locked && past_lock then a
      else if a.is_instant then a
      else { a with last_triggered := none }
    a :: clearTriggeredList is_locked past_lock rest

/-- Embeds `ActionQueue::clear_triggered_before_lock` (action_queue.rs:163),
applied to each of the three blocks in order. -/
def ActionQueue.clear_triggered_before_lock (q : ActionQueue) (is_locked : Bool) :
    ActionQueue :=
  { q with
    default_actions := clearTriggeredList is_locked false q.default_actions
    ac_actions := clearTriggeredList is_locked false q.ac_actions
    battery_actions := clearTriggeredList is_locked false q.battery_actions }

/-- Embeds `ActionQueue::advance_index` (action_queue.rs:209). -/
def ActionQueue.advance_index (q : ActionQueue) : ActionQueue :=
  let actions_len := q.get_active_actions.length
  let q := { q with action_index := q.action_index + 1 }
  if q.action_index < actions_len then
    { q with resume_commands_fired := false }
  else
    { q with action_index := actions_len - 1 }

/-- Embeds `ActionQueue::mark_notification_sent` (action_queue.rs:237). -/
def ActionQueue.mark_notification_sent (q : ActionQueue) (action_index : Nat) :
    ActionQueue :=
  { q with notification_sent_for_action := some action_index }

/-- Embeds `ActionQueue::notification_sent_for` (action_queue.rs:242). -/
def ActionQueue.notification_sent_for (q : ActionQueue) (action_index : Nat) : Bool :=
  q.notification_sent_for_action == some action_index

/-- The `original_fire_time` computed per action by
`ActionQueue::next_action_time` (action_queue.rs:318-329): base is the
action's own `last_triggered`, else (for `i > 0`) the previous action's
`last_triggered`, else `debounce.unwrap_or(last_activity)` for `i == 0` and
`last_activity` otherwise; the fire time adds the action's timeout. -/
def originalFireTime (actions : List IdleActionBlock) (last_activity : Nat)
    (debounce : Option Nat) (i : Nat) (a : IdleActionBlock) : Nat :=
  match a.last_triggered with
  | some last_trig => last_trig + a.timeout
  | none =>
    if i > 0 then
      match (actions.get? (i - 1)).bind (fun prev => prev.last_triggered) with
      | some prev_trig => prev_trig + a.timeout
      | none => last_activity + a.timeout
    else
      (debounce.getD last_activity) + a.timeout

/-- The wake instant per action in `ActionQueue::next_action_time`
(action_queue.rs:332-341): the original fire time, pushed out by
`notify_seconds` when notifications apply and the pre-warn for this index
was already sent. -/
def wakeTime (q : ActionQueue) (notify_enabled : Bool) (notify_seconds : Nat)
    (i : Nat) (a : IdleActionBlock) (original_fire_time : Nat) : Nat :=
  if notify_enabled && a.notification.isSome then
    if q.notification_sent_for i then original_fire_time + notify_seconds
    else original_fire_time
  else original_fire_time

/-- Accumulate the running minimum, as the source's `min_time` fold. -/
def optMin (acc : Option Nat) (t : Nat) : Option Nat :=
  match acc with
  | none => some t
  | some m => some (min m t)

/-- The body of the `next_action_time` loop (action_queue.rs:310-347) over
the enumerated action list. -/
def nextActionTimeFold (q : ActionQueue) (actions : List IdleActionBlock)
    (is_locked : Bool) (last_activity : Nat) (debounce : Option Nat)
    (notify_enabled : Bool) (notify_seconds : Nat)
    (acc : Option Nat) (ia : Nat × IdleActionBlock) : Option Nat :=
  if ia.2.kind == IdleAction.lockScreen && is_locked then acc
  else
    optMin acc
      (wakeTime q notify_enabled notify_seconds ia.1 ia.2
        (originalFireTime actions last_activity debounce ia.1 ia.2))

/-- Embeds `ActionQueue::next_action_time` (action_queue.rs:294). -/
def ActionQueue.next_action_time (q : ActionQueue) (is_locked : Bool)
    (last_activity : Nat) (debounce : Option Nat)
    (notify_enabled : Bool) (notify_seconds : Nat) : Option Nat :=
  let actions := q.get_active_actions
  if actions.isEmpty then none
  else
    actions.enum.foldl
      (nextActionTimeFold q actions is_locked last_activity debounce
        notify_enabled notify_seconds)
      none

/-!
## Manager state (`state.rs`, as used by `mod.rs` / `helpers.rs` / `inhibitors.rs`)

Reified side effects.  `runDetached` is `run_command_detached` (spawn in its
own process group, do not wait), `runSilent` is a background
`run_command_silent` task, `runBlocking` is the blocking-with-timeout
runner, `wakeScheduler` is a kick of the `notify` notifier and
`wakeLockWatcher` of `lock_notify`.  `spawnNotifyTask msg wake_at` is the
one-shot pre-warn task: it runs `notify-send -a Stasis <msg>` through the
blocking runner, sleeps until `wake_at`, then kicks the scheduler notifier.
-/
inductive Effect where
  | runDetached (cmd : String)
  | runSilent (cmd : String)
  | runBlocking (cmd : String)
  | sleepMs (ms : Nat)
  | restoreBrightness (level : Nat)
  | captureBrightness
  | wakeScheduler
  | wakeLockWatcher
  | spawnNotifyTask (msg : String) (wake_at : Nat)
deriving DecidableEq

/-- Results of the external probes the code consults: `probe_locked` is the
logind/process probe inside `prepare_action`, `process_running` is
`is_process_running` as used by `Manager::reset`, `brightness` the current
backlight level read on capture. -/
structure Env where
  probe_locked : Bool
  process_running : Bool
  brightness : Nat
deriving DecidableEq

/-- Embeds `config::model::LidCloseAction` as matched in `handlers.rs`. -/
inductive LidCloseAction where
  | ignore
  | lockScreen
  | suspend
  | custom (cmd : String)
deriving DecidableEq

/-- Embeds `config::model::LidOpenAction` as matched in `handlers.rs`. -/
inductive LidOpenAction where
  | ignore
  | wake
  | custom (cmd : String)
deriving DecidableEq

/-- The configuration fields consumed by the modelled core. -/
structure Config where
  actions : List IdleActionBlock
  pre_suspend_command : Option String := none
  debounce_seconds : Nat := 0
  notify_before_action : Bool := false
  notify_seconds_before : Nat := 0
  lid_close_action : LidCloseAction := LidCloseAction.ignore
  lid_open_action : LidOpenAction := LidOpenAction.ignore
deriving DecidableEq

/-- Embeds `LockState` (state.rs:397).  `process_info` holds a `ProcessInfo` in the
source; the claims only observe its presence and the tracked identity, so it
is modelled as the tracked command / process-name string. -/
structure LockState where
  is_locked : Bool := false
  process_info : Option String := none
  command : Option String := none
  last_advanced : Option Nat := none
  post_advanced : Bool := false
deriving DecidableEq

/-- Embeds `ManagerState` (state.rs:14), restricted to the fields the modelled
functions read or write.  The chassis is modelled by `on_battery`:
`none` is `Desktop`, `some b` is `Laptop { on_battery: b }`.
`current_block` is an `Option String` as `mod.rs` uses it.
`last_activity_display` and `instant_actions` are written/read by `mod.rs`
but absent from `state.rs` (the snapshot is inconsistent); they are kept as
separate fields so `mod.rs` can be transcribed as written. -/
structure MState where
  default_actions : List IdleActionBlock := []
  ac_actions : List IdleActionBlock := []
  battery_actions : List IdleActionBlock := []
  action_index : Nat := 0
  active_inhibitor_count : Nat := 0
  cfg : Option Config := none
  current_block : Option String := none
  debounce : Option Nat := none
  instant_actions : List IdleActionBlock := []
  instants_triggered : Bool := false
  last_activity : Nat := 0
  last_activity_display : Nat := 0
  lock_state : LockState := {}
  manually_paused : Bool := false
  paused : Bool := false
  pending_notification_task : Bool := false
  notification_sent_for_action : Option Nat := none
  previous_brightness : Option Nat := none
  pre_suspend_command : Option String := none
  resume_queue : List IdleActionBlock := []
  resume_commands_fired : Bool := false
  on_battery : Option Bool := none
  suspend_occured : Bool := false
deriving DecidableEq

/-- Select a block's action list by name, as the repeated
`match block_name { "ac" => ..., "battery" => ..., "default" => ... }`
in `mod.rs` and `helpers.rs`. -/
def selectBlock (block_name : String) (s : MState) : List IdleActionBlock :=
  match block_name with
  | "ac" => s.ac_actions
  | "battery" => s.battery_actions
  | _ => s.default_actions

/-- Write a block's action list back by name. -/
def updateBlock (block_name : String) (s : MState) (l : List IdleActionBlock) :
    MState :=
  match block_name with
  | "ac" => { s with ac_actions := l }
  | "battery" => { s with battery_actions := l }
  | _ => { s with default_actions := l }

/-- The block-name formula repeated at mod.rs:100, mod.rs:182 and
helpers.rs:336: battery/ac by power state when any power-specific block is
configured, else `default`. -/
def resetBlockName (s : MState) : String :=
  if !s.ac_actions.isEmpty || !s.battery_actions.isEmpty then
    match s.on_battery with
    | some true => "battery"
    | some false => "ac"
    | none => "default"
  else "default"

/-- Perform `actions[i].last_triggered = Some(t)` on a block list. -/
def setTriggeredAt (l : List IdleActionBlock) (i : Nat) (t : Nat) :
    List IdleActionBlock :=
  match l.get? i with
  | some a => l.set i { a with last_triggered := some t }
  | none => l

/-- Embeds `Manager::pause` (mod.rs:326): manual pause sets `manually_paused` and
clears the automatic `paused` flag; automatic pause sets `paused` unless
manually paused. -/
def Manager.pause (manual : Bool) (s : MState) : MState :=
  if manual then
    { s with manually_paused := true, paused := false }
  else if !s.manually_paused then
    { s with paused := true }
  else s

/-- Embeds `Manager::resume` (mod.rs:337). -/
def Manager.resume (manually : Bool) (s : MState) : MState :=
  if manually then
    if s.manually_paused then
      { s with manually_paused := false, paused := false }
    else s
  else if !s.manually_paused && s.paused then
    { s with paused := false }
  else s

/-- Embeds `Manager::advance_past_lock` (mod.rs:320). -/
def Manager.advance_past_lock (now : Nat) (s : MState) : MState :=
  { s with lock_state :=
      { s.lock_state with post_advanced := true, last_advanced := some now } }

/-- The value `u32::MAX`, the saturation bound of the inhibitor counter. -/
def u32Max : Nat := 4294967295

/-- Embeds `Manager::fire_resume_queue` (mod.rs:252): drain the queue in FIFO
order, spawning each `resume_command` detached. -/
def fire_resume_queue (s : MState) : MState × List Effect :=
  if s.resume_queue.isEmpty then (s, [])
  else
    ({ s with resume_queue := [] },
     s.resume_queue.filterMap (fun a => a.resume_command.map Effect.runDetached))

/-- Embeds `str::trim` executably: drop whitespace from both ends. -/
def strTrim (s : String) : String :=
  String.mk
    (((s.toList.dropWhile Char.isWhitespace).reverse.dropWhile
        Char.isWhitespace).reverse)

/-- Embeds `ActionRequest` (actions.rs:32). -/
inductive ActionRequest where
  | runCommand (cmd : String)
  | skip (probe : String)
deriving DecidableEq

/-- Embeds `prepare_action` (actions.rs:47).  For LockScreen the source probes
logind and falls back to a process check; the probe's outcome is
`env.probe_locked`. -/
def prepare_action (env : Env) (a : IdleActionBlock) : List ActionRequest :=
  match a.kind with
  | IdleAction.suspend =>
    if strTrim a.command == "" then [] else [ActionRequest.runCommand a.command]
  | IdleAction.lockScreen =>
    if env.probe_locked then [ActionRequest.skip (a.lock_command.getD a.command)]
    else [ActionRequest.runCommand a.command]
  | _ =>
    if strTrim a.command == "" then [] else [ActionRequest.runCommand a.command]

/-- Embeds `run_command_for_action` (helpers.rs:234).  For a lock action the
spawned process is tracked in `lock_state.process_info` (with
`lock_command` acting as a process-name override) and `is_locked` is set;
any other kind is spawned in a background task. -/
def run_command_for_action (s : MState) (a : IdleActionBlock) (cmd : String) :
    MState × List Effect :=
  if a.kind == IdleAction.lockScreen then
    if containsSubstr cmd loginctlStr then
      match a.lock_command with
      | some lock_cmd =>
        ({ s with lock_state :=
            { s.lock_state with process_info := some lock_cmd, is_locked := true } },
         [Effect.runDetached cmd, Effect.runDetached lock_cmd])
      | none =>
        ({ s with lock_state := { s.lock_state with is_locked := true } },
         [Effect.runDetached cmd])
    else
      ({ s with lock_state :=
          { s.lock_state with process_info := some (a.lock_command.getD cmd),
                              is_locked := true } },
       [Effect.runDetached cmd])
  else
    (s, [Effect.runSilent cmd])

/-- Fold `run_command_for_action` over the prepared requests
(helpers.rs:223-231). -/
def runRequests (a : IdleActionBlock) :
    MState → List Effect → List ActionRequest → MState × List Effect
  | s, effs, [] => (s, effs)
  | s, effs, ActionRequest.runCommand cmd :: rest =>
    runRequests a (run_command_for_action s a cmd).1
      (effs ++ (run_command_for_action s a cmd).2) rest
  | s, effs, ActionRequest.skip _ :: rest => runRequests a s effs rest

/-- Embeds `run_action` (helpers.rs:165).  Early returns: a loginctl-style lock
only spawns the command (state is driven by the Lock signal); a lock while
already locked is skipped.  Otherwise: brightness capture on first entry,
lock-state update and lock-watcher kick for LockScreen, the pre-suspend
spawn plus 500 ms wait for Suspend, then the prepared commands. -/
def run_action (env : Env) (s : MState) (a : IdleActionBlock) :
    MState × List Effect :=
  if a.kind == IdleAction.lockScreen && containsSubstr a.command loginctlStr then
    (s, [Effect.runDetached a.command])
  else if a.kind == IdleAction.lockScreen && s.lock_state.is_locked then
    (s, [])
  else
    let se :=
      if a.kind == IdleAction.brightness && s.previous_brightness.isNone then
        ({ s with previous_brightness := some env.brightness },
         [Effect.captureBrightness])
      else (s, [])
    let se :=
      if a.kind == IdleAction.lockScreen then
        ({ se.1 with lock_state := { se.1.lock_state with is_locked := true } },
         se.2 ++ [Effect.wakeLockWatcher])
      else se
    let se :=
      if a.kind == IdleAction.suspend then
        match se.1.cfg with
        | some cfg =>
          match cfg.pre_suspend_command with
          | some cmd => (se.1, se.2 ++ [Effect.runDetached cmd, Effect.sleepMs 500])
          | none => se
        | none => se
      else se
    runRequests a se.1 se.2 (prepare_action env a)

/-- The per-block clearing loop inlined in `Manager::reset` (mod.rs:87-99).
Unlike `ActionQueue::clear_triggered_before_lock`, this loop has no
instant-action exemption. -/
def resetClearList (is_locked : Bool) (past_lock : Bool) :
    List IdleActionBlock → List IdleActionBlock
  | [] => []
  | a :: rest =>
    let past_lock := past_lock || (a.kind == IdleAction.lockScreen)
    let a :=
      if is_locked && past_lock then a
      else { a with last_triggered := none }
    a :: resetClearList is_locked past_lock rest

/-- Brightness-restore stage of `Manager::reset` (mod.rs:74-79):
`restore_brightness` clears the stored level on every path. -/
def resetBrightnessStage (s : MState) : MState × List Effect :=
  if s.previous_brightness.isSome then
    ({ s with previous_brightness := none },
     [Effect.restoreBrightness (s.previous_brightness.getD 0)])
  else (s, [])

/-- Timing and clearing stage of `Manager::reset` (mod.rs:81-99): stamp the
display timestamp, restart the debounce window, clear `last_triggered` up
to the lock stage in all three blocks. -/
def resetTimingStage (now debounce : Nat) (s : MState) : MState :=
  let s := { s with last_activity_display := now }
  let s := { s with debounce := some (now + debounce) }
  { s with
    default_actions := resetClearList s.lock_state.is_locked false s.default_actions
    ac_actions := resetClearList s.lock_state.is_locked false s.ac_actions
    battery_actions := resetClearList s.lock_state.is_locked false s.battery_actions }

/-- The index bump inside `Manager::reset`'s lock branch (mod.rs:142-156):
set `action_index` to one past the lock, anchor that stage (or, past the
end, the lock stage) at the end of the debounce window, and record
`post_advanced`. -/
def resetLockAdvance (now debounce : Nat) (block_name : String)
    (actions : List IdleActionBlock) (lock_index : Nat) (s : MState) : MState :=
  let s := { s with action_index := lock_index + 1 }
  let debounce_end := now + debounce
  let s :=
    if s.action_index < actions.length then
      updateBlock block_name s
        (setTriggeredAt (selectBlock block_name s) s.action_index debounce_end)
    else if lock_index < actions.length then
      updateBlock block_name s
        (setTriggeredAt (selectBlock block_name s) lock_index debounce_end)
    else s
  { s with lock_state := { s.lock_state with post_advanced := true } }

/-- Post-lock bump stage of `Manager::reset` (mod.rs:132-159): while locked
and the lock still probes active, advance to one past the lock stage and
anchor it at the end of the debounce window. -/
def resetLockStage (env : Env) (now debounce : Nat) (block_name : String)
    (actions : List IdleActionBlock) (s : MState) : MState :=
  if s.lock_state.is_locked then
    match actions.findIdx? (fun a => a.kind == IdleAction.lockScreen) with
    | some lock_index =>
      let still_active :=
        match s.lock_state.command with
        | some _ => env.process_running
        | none => true
      if still_active && s.lock_state.is_locked then
        resetLockAdvance now debounce block_name actions lock_index s
      else s
    | none => s
  else s

/-- Embeds `Manager::reset` (mod.rs:65), the activity reset: restore brightness,
restart the debounce window, clear `last_triggered` up to the lock stage,
recompute the current block and `action_index`, bump past the lock stage
while locked (anchoring the next stage at the end of the debounce), then
drain the resume queue and wake the scheduler.  An instant action at the
recomputed index returns early, before the resume drain. -/
def Manager.reset (env : Env) (now : Nat) (s : MState) : MState × List Effect :=
  match s.cfg with
  | none => (s, [])
  | some cfg =>
    let se := resetBrightnessStage s
    let effs := se.2
    let s := resetTimingStage now cfg.debounce_seconds se.1
    let block_name := resetBlockName s
    let s :=
      if s.current_block != some block_name then
        { s with current_block := some block_name }
      else s
    let actions := selectBlock block_name s
    let index := (actions.findIdx? (fun a => a.last_triggered.isNone)).getD
      (actions.length - 1)
    if !actions.isEmpty &&
        (((actions.get? index).map (fun a => a.is_instant)).getD false) then
      (s, effs)
    else
      let s := resetLockStage env now cfg.debounce_seconds block_name actions s
      let se := fire_resume_queue s
      (se.1, effs ++ se.2 ++ [Effect.wakeScheduler])

/-- Embeds `incr_active_inhibitor` (inhibitors.rs:4, duplicated at
helpers.rs:389): saturating increment; on 0 → 1 set `paused` unless
manually paused; wake the scheduler. -/
def incr_active_inhibitor (s : MState) : MState × List Effect :=
  let prev := s.active_inhibitor_count
  let s := { s with active_inhibitor_count := min (prev + 1) u32Max }
  let s :=
    if prev == 0 && !s.manually_paused then { s with paused := true } else s
  (s, [Effect.wakeScheduler])

/-- Embeds `decr_active_inhibitor` (inhibitors.rs:33, duplicated at
helpers.rs:418): a call at count 0 logs a mismatch and returns; otherwise
decrement, and on reaching 0 with no manual pause clear `paused`, reset,
drain the resume queue and wake the scheduler. -/
def decr_active_inhibitor (env : Env) (now : Nat) (s : MState) :
    MState × List Effect :=
  if s.active_inhibitor_count == 0 then (s, [])
  else
    let s := { s with active_inhibitor_count := s.active_inhibitor_count - 1 }
    if s.active_inhibitor_count == 0 then
      if !s.manually_paused then
        let s := { s with paused := false }
        let r1 := Manager.reset env now s
        let r2 := fire_resume_queue r1.1
        (r2.1, r1.2 ++ r2.2 ++ [Effect.wakeScheduler])
      else (s, [Effect.wakeScheduler])
    else (s, [])

/-- Result of one scheduler step: the new state, the action handed to
`run_action` (if any), and the reified effects. -/
structure StepResult where
  state : MState
  fired : Option IdleActionBlock := none
  effects : List Effect := []
deriving DecidableEq

/-- The fire step of `Manager::check_timeouts` (mod.rs:222-249): stamp the
stage, advance `action_index` (clamped to `len - 1`, stamping the next
stage and re-arming the resume drain when one exists), queue the resume
command of a non-lock action, and run the action. -/
def fireStage (env : Env) (now : Nat) (block_name : String)
    (actions : List IdleActionBlock) (index : Nat) (action : IdleActionBlock)
    (s : MState) : StepResult :=
  let action_clone := action
  let s := updateBlock block_name s (setTriggeredAt actions index now)
  let s := { s with action_index := s.action_index + 1 }
  let s :=
    if s.action_index < actions.length then
      let s := updateBlock block_name s
        (setTriggeredAt (selectBlock block_name s) s.action_index now)
      { s with resume_commands_fired := false }
    else { s with action_index := actions.length - 1 }
  let s :=
    if action_clone.kind == IdleAction.lockScreen then s
    else if action_clone.resume_command.isSome then
      { s with resume_queue := s.resume_queue ++ [action_clone] }
    else s
  let r := run_action env s action_clone
  { state := r.1, fired := some action_clone, effects := r.2 }

/-- Body of `Manager::check_timeouts` after the debounce gate
(mod.rs:181-249): recompute the block, clamp the index, skip a LockScreen
stage while locked, and if the stage's timeout has elapsed fire it. -/
def checkTimeoutsBody (env : Env) (now : Nat) (s : MState) : StepResult :=
  let block_name := resetBlockName s
  let s :=
    if s.current_block != some block_name then
      { s with current_block := some block_name }
    else s
  let actions := selectBlock block_name s
  if actions.isEmpty then { state := s }
  else
    let index := min s.action_index (actions.length - 1)
    match actions.get? index with
    | none => { state := s }
    | some action =>
      if action.kind == IdleAction.lockScreen && s.lock_state.is_locked then
        { state := s }
      else
        let last_ref := action.last_triggered.getD s.last_activity
        let elapsed := now - last_ref
        if action.timeout ≤ elapsed then
          fireStage env now block_name actions index action s
        else { state := s }

/-- Embeds `Manager::check_timeouts` (mod.rs:166): return while paused; while the
debounce window is open return, and on its expiry stamp `last_activity` and
clear it before checking the stage. -/
def Manager.check_timeouts (env : Env) (now : Nat) (s : MState) : StepResult :=
  if s.paused || s.manually_paused then { state := s }
  else
    match s.debounce with
    | some until_t =>
      if now < until_t then { state := s }
      else checkTimeoutsBody env now { s with last_activity := now, debounce := none }
    | none => checkTimeoutsBody env now s

/-- The firing loop of `trigger_all_idle_actions` (helpers.rs:361-370):
run each cloned action in order, skipping a LockScreen action while
`lock_state.is_locked` holds at that point of the loop. -/
def triggerLoop (env : Env) (s : MState) :
    List IdleActionBlock → MState × List IdleActionBlock × List Effect
  | [] => (s, [], [])
  | a :: rest =>
    if a.kind == IdleAction.lockScreen && s.lock_state.is_locked then
      triggerLoop env s rest
    else
      let r1 := run_action env s a
      let r2 := triggerLoop env r1.1 rest
      (r2.1, a :: r2.2.1, r1.2 ++ r2.2.2)

/-- Embeds `trigger_all_idle_actions` (helpers.rs:333), the `trigger all` IPC
path: pick the block, fire the loop, then stamp `last_triggered = now` on
every action of the block and set `action_index = len - 1`. -/
def trigger_all_idle_actions (env : Env) (now : Nat) (s : MState) :
    MState × List IdleActionBlock × List Effect :=
  let block_name := resetBlockName s
  let actions_to_trigger := selectBlock block_name s
  if actions_to_trigger.isEmpty then (s, [], [])
  else
    let r := triggerLoop env s actions_to_trigger
    let s := r.1
    let actions_mut := selectBlock block_name s
    let s := updateBlock block_name s
      (actions_mut.map (fun a => { a with last_triggered := some now }))
    let s := { s with action_index := actions_mut.length - 1 }
    (s, r.2.1, r.2.2)

/-- The firing rule of the `trigger all` loop as a pure fold over the block:
an action fires unless it is a LockScreen action while the lock flag holds at
that point.  The flag starts as the session's `lock_state.is_locked` and
becomes set when a non-loginctl LockScreen action fires (`run_action` sets
`is_locked` on that path only; a loginctl-style lock leaves the flag to the
Lock signal, helpers.rs:168-178), so a later LockScreen action of the same
run is skipped. -/
def triggerFired (locked : Bool) : List IdleActionBlock → List IdleActionBlock
  | [] => []
  | a :: rest =>
    if a.kind == IdleAction.lockScreen && locked then triggerFired locked rest
    else
      a :: triggerFired
        (locked || (a.kind == IdleAction.lockScreen &&
          !containsSubstr a.command loginctlStr)) rest

/-- Embeds `ManagerState::update_current_block` (state.rs:194): recompute the
block from chassis and power state (no ac-fallback on battery); on a real
change reset the index, re-arm instants, clear pre-warn state and wake the
scheduler.  (`state.rs` stores `current_block` as a plain `String`; this
state uses the `Option String` of `mod.rs`, so the comparison is against
`some new_block`.) -/
def update_current_block (s : MState) : MState × List Effect :=
  let new_block :=
    match s.on_battery with
    | none => "default"
    | some ob =>
      if ob then
        if !s.battery_actions.isEmpty then "battery" else "default"
      else
        if !s.ac_actions.isEmpty then "ac" else "default"
  if s.current_block != some new_block then
    ({ s with current_block := some new_block, action_index := 0,
              instants_triggered := false, pending_notification_task := false,
              notification_sent_for_action := none },
     [Effect.wakeScheduler])
  else (s, [])

/-- Embeds `ManagerState::set_on_battery` (state.rs:185): only a laptop records the
power state and re-derives the block. -/
def set_on_battery (value : Bool) (s : MState) : MState × List Effect :=
  match s.on_battery with
  | some _ => update_current_block { s with on_battery := some value }
  | none => (s, [])

/-- Embeds `Manager::trigger_instant_actions` (mod.rs:44): run the instants batch
once per arming. -/
def trigger_instant_actions (env : Env) (s : MState) : MState × List Effect :=
  if s.instants_triggered then (s, [])
  else
    let r := s.instant_actions.foldl
      (fun (acc : MState × List Effect) a =>
        let r := run_action env acc.1 a
        (r.1, acc.2 ++ r.2))
      (s, [])
    ({ r.1 with instants_triggered := true }, r.2)

/-- The session-event enum (`handlers.rs:7`). -/
inductive Event where
  | inputActivity
  | mediaPlaybackActive
  | mediaPlaybackEnded
  | acConnected
  | acDisconnected
  | lockScreenDetected
  | suspend
  | wake
  | resume
  | lidClosed
  | lidOpened
  | loginctlLock
  | loginctlUnlock
deriving DecidableEq

/-- Embeds `handle_event` (handlers.rs:23), the serialized event router.
(`handlers.rs` resets the index through a `state.action_queue` field that
does not exist in `state.rs`; here that write lands on the state's own
`action_index`.) -/
def handle_event (env : Env) (now : Nat) (e : Event) (s : MState) :
    MState × List Effect :=
  match e with
  | Event.acConnected =>
    let r := set_on_battery false s
    let s := { r.1 with action_index := 0, instants_triggered := false }
    let r2 := trigger_instant_actions env s
    (r2.1, r.2 ++ r2.2 ++ [Effect.wakeScheduler])
  | Event.acDisconnected =>
    let r := set_on_battery true s
    let s := { r.1 with action_index := 0, instants_triggered := false }
    let r2 := trigger_instant_actions env s
    (r2.1, r.2 ++ r2.2 ++ [Effect.wakeScheduler])
  | Event.inputActivity =>
    let r := Manager.reset env now s
    (r.1, r.2 ++ [Effect.wakeLockWatcher, Effect.wakeScheduler])
  | Event.suspend => (Manager.pause false s, [])
  | Event.resume => (Manager.resume false s, [Effect.wakeScheduler])
  | Event.wake =>
    let s := Manager.resume false s
    let r := Manager.reset env now s
    (r.1, r.2 ++ [Effect.wakeScheduler])
  | Event.lockScreenDetected =>
    (Manager.advance_past_lock now s, [Effect.wakeScheduler])
  | Event.mediaPlaybackActive => (Manager.pause false s, [Effect.wakeScheduler])
  | Event.mediaPlaybackEnded => (Manager.resume false s, [Effect.wakeScheduler])
  | Event.lidClosed =>
    match s.cfg with
    | none => (s, [])
    | some cfg =>
      match cfg.lid_close_action with
      | LidCloseAction.suspend =>
        match cfg.actions.find? (fun a => a.kind == IdleAction.suspend) with
        | some a => run_action env s a
        | none => (s, [])
      | LidCloseAction.lockScreen =>
        match cfg.actions.find? (fun a => a.kind == IdleAction.lockScreen) with
        | some a => run_action env s a
        | none => (s, [])
      | LidCloseAction.custom cmd => (s, [Effect.runDetached cmd])
      | LidCloseAction.ignore => (s, [])
  | Event.lidOpened =>
    match s.cfg with
    | none => (s, [])
    | some cfg =>
      match cfg.lid_open_action with
      | LidOpenAction.wake =>
        let s := Manager.resume false s
        let r := Manager.reset env now s
        (r.1, r.2 ++ [Effect.wakeScheduler])
      | LidOpenAction.custom cmd => (s, [Effect.runDetached cmd])
      | LidOpenAction.ignore => (s, [])
  | Event.loginctlLock =>
    if s.lock_state.is_locked then (s, [])
    else
      let lock_cmd_opt :=
        match s.cfg with
        | some cfg =>
          (cfg.actions.find? (fun a => a.kind == IdleAction.lockScreen)).bind
            (fun a => a.lock_command)
        | none => none
      let s := { s with lock_state := { s.lock_state with is_locked := true } }
      let se :=
        match lock_cmd_opt with
        | some lock_cmd =>
          ({ s with lock_state := { s.lock_state with process_info := some lock_cmd } },
           [Effect.wakeLockWatcher, Effect.runDetached lock_cmd])
        | none => (s, [Effect.wakeLockWatcher])
      let s := Manager.advance_past_lock now se.1
      (s, se.2 ++ [Effect.wakeScheduler])
  | Event.loginctlUnlock =>
    let r := Manager.reset env now s
    (r.1, r.2 ++ [Effect.wakeLockWatcher, Effect.wakeScheduler])

/-- Embeds `LockState::from_config` (state.rs:418): remember the lock probe
identity of the first LockScreen action (`lock_command` if set, else the
command). -/
def LockState.from_config (cfg : Config) : LockState :=
  { command :=
      (cfg.actions.find? (fun a => a.kind == IdleAction.lockScreen)).map
        (fun a => a.lock_command.getD a.command) }

/-- Embeds `ManagerState::new` (state.rs:97): split the configured actions by
name prefix, start on `ac` for laptops and `default` for desktops, open the
initial debounce window.  The `instant_actions` batch read by `mod.rs` is
absent from `state.rs`; modelled from the spec as the timeout-zero
actions. -/
def MState.new (is_laptop : Bool) (now : Nat) (cfg : Config) : MState :=
  { default_actions := cfg.actions.filter
      (fun a => !(a.name.startsWith "ac." || a.name.startsWith "battery."))
    ac_actions := cfg.actions.filter (fun a => a.name.startsWith "ac.")
    battery_actions := cfg.actions.filter (fun a => a.name.startsWith "battery.")
    cfg := some cfg
    current_block := some (if is_laptop then "ac" else "default")
    debounce := some (now + cfg.debounce_seconds)
    instant_actions := cfg.actions.filter (fun a => a.is_instant)
    last_activity := now
    last_activity_display := now
    lock_state := LockState.from_config cfg
    pre_suspend_command := cfg.pre_suspend_command
    on_battery := if is_laptop then some false else none }

/-- The active block as seen from the manager state's `current_block`. -/
def stateActiveActions (s : MState) : List IdleActionBlock :=
  selectBlock (s.current_block.getD "default") s

/-- Modelled from the spec: the per-action base of the next-fire rule
(spec section 4.4), as the claims state it — `last_triggered(i)` if set,
else `last_triggered(i-1)` for `i > 0` if set, else
`max(last_activity, debounce_until)` for `i == 0`, else `last_activity`. -/
def specBase (actions : List IdleActionBlock) (last_activity : Nat)
    (debounce : Option Nat) (i : Nat) (a : IdleActionBlock) : Nat :=
  match a.last_triggered with
  | some t => t
  | none =>
    if i > 0 then
      match (actions.get? (i - 1)).bind (fun prev => prev.last_triggered) with
      | some t => t
      | none => last_activity
    else max last_activity (debounce.getD last_activity)

/-- Modelled from the spec: `original_fire_time = base + timeout`
(spec section 4.4). -/
def specOriginalFireTime (actions : List IdleActionBlock) (last_activity : Nat)
    (debounce : Option Nat) (i : Nat) (a : IdleActionBlock) : Nat :=
  specBase actions last_activity debounce i a + a.timeout

/-- Modelled from the spec: step 7 of `check_timeouts` (spec section 4.4):
stamp the stage, clear pre-warn state, advance the index saturating at
`len-1`, queue the resume command of a non-lock action, run the action. -/
def specFire (env : Env) (now : Nat) (s : MState)
    (actions : List IdleActionBlock) (i : Nat) (a : IdleActionBlock) :
    StepResult :=
  let block_name := s.current_block.getD "default"
  let s := updateBlock block_name s (setTriggeredAt actions i now)
  let s := { s with pending_notification_task := false,
                    notification_sent_for_action := none }
  let s := { s with action_index := min (s.action_index + 1) (actions.length - 1) }
  let s :=
    if a.kind == IdleAction.lockScreen then s
    else if a.resume_command.isSome then
      { s with resume_queue := s.resume_queue ++ [a] }
    else s
  let r := run_action env s a
  { state := r.1, fired := some a, effects := r.2 }

/-- Modelled from the spec: `check_timeouts` with the notification pre-warn
branch, steps 1-7 of spec section 4.4.  The scheduler that pairs with
`ActionQueue` is not in the source snapshot: `action_queue.rs` declares
`mark_notification_sent` / `notification_sent_for` /
`pending_notification_task` and `next_action_time` consumes the sent flag,
but no code under `src/` ever sends the pre-warn; `mod.rs`'s
`check_timeouts` belongs to the older state layout and has no notification
branch.  Steps: early-exit while paused; clamp `i`; skip a locked lock
stage; if notifications apply, `now ≥ original_fire_time` and not yet
notified, mark notified and spawn the one-shot notify task, firing nothing;
hold while a sent pre-warn's grace runs; hold before the fire time; else
fire, clear pre-warn state and advance the index saturating at `len-1`. -/
def spec_check_timeouts (env : Env) (now : Nat) (s : MState) : StepResult :=
  if s.paused || s.manually_paused then { state := s }
  else
    let actions := stateActiveActions s
    if actions.isEmpty then { state := s }
    else
      let i := min s.action_index (actions.length - 1)
      match actions.get? i with
      | none => { state := s }
      | some a =>
        if a.kind == IdleAction.lockScreen && s.lock_state.is_locked then
          { state := s }
        else
          let oft := specOriginalFireTime actions s.last_activity s.debounce i a
          let notify_enabled := ((s.cfg.map Config.notify_before_action).getD false)
          let notify_secs := ((s.cfg.map Config.notify_seconds_before).getD 0)
          match a.notification with
          | some msg =>
            if notify_enabled && decide (oft ≤ now) &&
                !(s.notification_sent_for_action == some i) then
              { state := { s with notification_sent_for_action := some i,
                                  pending_notification_task := true }
                fired := none
                effects := [Effect.spawnNotifyTask msg (oft + notify_secs)] }
            else if notify_enabled && (s.notification_sent_for_action == some i) &&
                decide (now < oft + notify_secs) then
              { state := s }
            else if now < oft then { state := s }
            else specFire env now s actions i a
          | none =>
            if now < oft then { state := s }
            else specFire env now s actions i a

/-- The claim's reading of `determine_block`: a cascade
battery → ac → default on battery power. -/
def claimed_determine_block (q : ActionQueue) (on_battery : Bool) : String :=
  if on_battery then
    if !q.battery_actions.isEmpty then "battery"
    else if !q.ac_actions.isEmpty then "ac"
    else "default"
  else
    if !q.ac_actions.isEmpty then "ac" else "default"

/-- Whether an action participates in the next-fire scan
(action_queue.rs:312): LockScreen actions are excluded while locked. -/
def eligibleAction (is_locked : Bool) (ia : Nat × IdleActionBlock) : Bool :=
  !(ia.2.kind == IdleAction.lockScreen && is_locked)

/-- The claim's reading of `next_action_time`: the minimum of
`base + timeout` over the eligible actions of the current block, with the
spec's `max(last_activity, debounce_until)` base at stage 0 and no
notification adjustment. -/
def claimed_next_action_time (q : ActionQueue) (is_locked : Bool)
    (last_activity : Nat) (debounce : Option Nat) : Option Nat :=
  let actions := q.get_active_actions
  (((actions.enum.filter (eligibleAction is_locked)).map
      (fun ia => specOriginalFireTime actions last_activity debounce ia.1 ia.2))).min?

/-- What `next_action_time` actually returns (the amended claim): the
minimum over eligible actions of the wake instant — the code's
original fire time (debounce-start base at stage 0), pushed out by
`notify_seconds` for an action whose pre-warn was already sent. -/
def actual_next_action_time (q : ActionQueue) (is_locked : Bool)
    (last_activity : Nat) (debounce : Option Nat)
    (notify_enabled : Bool) (notify_seconds : Nat) : Option Nat :=
  let actions := q.get_active_actions
  (((actions.enum.filter (eligibleAction is_locked)).map
      (fun ia => wakeTime q notify_enabled notify_seconds ia.1 ia.2
        (originalFireTime actions last_activity debounce ia.1 ia.2)))).min?

/-- The operation alphabet of claim C1: inhibitor increments and
decrements, manual/automatic pause and resume, and routed session events.
Operations carry the probe environment and clock instant they run at. -/
inductive InhibOp where
  | incr
  | decr (env : Env) (now : Nat)
  | pauseOp (manual : Bool)
  | resumeOp (manual : Bool)
  | ev (env : Env) (now : Nat) (e : Event)

/-- Apply one operation to the manager state. -/
def applyOp (op : InhibOp) (s : MState) : MState :=
  match op with
  | InhibOp.incr => (incr_active_inhibitor s).1
  | InhibOp.decr env now => (decr_active_inhibitor env now s).1
  | InhibOp.pauseOp m => Manager.pause m s
  | InhibOp.resumeOp m => Manager.resume m s
  | InhibOp.ev env now e => (handle_event env now e s).1

/-- Run a sequence of operations left to right. -/
def runOps (s : MState) (ops : List InhibOp) : MState :=
  ops.foldl (fun s op => applyOp op s) s

/-- Claim C1's stated invariant: a non-negative inhibitor count and
`paused ⇔ (count > 0 ∨ manually_paused)`. -/
def claimed_pause_invariant (s : MState) : Prop :=
  0 ≤ s.active_inhibitor_count ∧
    (s.paused = true ↔ (0 < s.active_inhibitor_count ∨ s.manually_paused = true))

instance (s : MState) : Decidable (claimed_pause_invariant s) := by
  unfold claimed_pause_invariant; infer_instance

/-- Whether some stage at or before index `i` of `l` is a LockScreen
action. -/
def lockAtOrBefore (l : List IdleActionBlock) (i : Nat) : Bool :=
  (l.take (i + 1)).any (fun a => a.kind == IdleAction.lockScreen)

/-- What `clear_triggered_before_lock` does to the stage at index `i` of a
block `l` (the amended claim C4): instants are kept, and while locked so is
every stage at or after the LockScreen action; everything else loses its
`last_triggered`. -/
def clearSpec (locked : Bool) (l : List IdleActionBlock) (i : Nat)
    (a : IdleActionBlock) : IdleActionBlock :=
  if a.is_instant || (locked && lockAtOrBefore l i) then a
  else { a with last_triggered := none }

/-- Binary minimum on optional values, the running-minimum combiner. -/
def optMin2 : Option Nat → Option Nat → Option Nat
  | none, y => y
  | some x, none => some x
  | some x, some y => some (min x y)

/-!
## Concrete sample inputs for witnesses and counterexamples
-/

/-- A plain custom action. -/
def actCustom : IdleActionBlock :=
  { name := "dim", kind := IdleAction.custom, timeout := 1,
    command := "brightness-down" }

/-- A custom action with timeout 7 and no trigger stamp. -/
def actSeven : IdleActionBlock :=
  { name := "blank", kind := IdleAction.custom, timeout := 7,
    command := "blank-screen" }

/-- A custom action carrying a pre-warn notification. -/
def actNotify : IdleActionBlock :=
  { name := "dimwarn", kind := IdleAction.custom, timeout := 60,
    command := "dim-screen", notification := some "Dimming" }

/-- A LockScreen action with a stale trigger stamp. -/
def actLockStamped : IdleActionBlock :=
  { name := "lock", kind := IdleAction.lockScreen, timeout := 300,
    command := "swaylock", last_triggered := some 3 }

/-- A LockScreen action with no stamp. -/
def actLockPlain : IdleActionBlock :=
  { name := "lock", kind := IdleAction.lockScreen, timeout := 300,
    command := "swaylock" }

/-- A first non-loginctl LockScreen action. -/
def actLockA : IdleActionBlock :=
  { name := "lockA", kind := IdleAction.lockScreen, timeout := 60,
    command := "swaylock" }

/-- A second non-loginctl LockScreen action. -/
def actLockB : IdleActionBlock :=
  { name := "lockB", kind := IdleAction.lockScreen, timeout := 120,
    command := "hyprlock" }

/-- An unlocked manager state whose default block holds two lock actions. -/
def sTwoLocks : MState :=
  { default_actions := [actLockA, actLockB], current_block := some "default" }

/-- A probe environment: not locked, lock process alive, backlight at 42. -/
def env0 : Env := { probe_locked := false, process_running := true, brightness := 42 }

/-- An empty configuration. -/
def cfg0 : Config := { actions := [] }

/-- A configuration with pre-warn notifications enabled, 5 s before. -/
def cfgNotify : Config :=
  { actions := [], notify_before_action := true, notify_seconds_before := 5 }

/-- An action queue whose current (default) block is one unstamped
7-second action. -/
def qSeven : ActionQueue :=
  { default_actions := [actSeven], ac_actions := [], battery_actions := []
    current_block := "default", action_index := 0, instants_triggered := false
    resume_queue := [], resume_commands_fired := false
    pending_notification_task := false, notification_sent_for_action := none }

/-- An action queue whose pre-warn for stage 0 was already sent. -/
def qNotify : ActionQueue :=
  { default_actions := [actNotify], ac_actions := [], battery_actions := []
    current_block := "default", action_index := 0, instants_triggered := false
    resume_queue := [], resume_commands_fired := false
    pending_notification_task := false, notification_sent_for_action := some 0 }

/-- An action queue whose default block is a single stamped lock action. -/
def qLock : ActionQueue :=
  { default_actions := [actLockStamped], ac_actions := [], battery_actions := []
    current_block := "default", action_index := 0, instants_triggered := false
    resume_queue := [], resume_commands_fired := false
    pending_notification_task := false, notification_sent_for_action := none }

/-- An action queue with an `ac` block but no `battery` block. -/
def qAcOnly : ActionQueue :=
  { default_actions := [], ac_actions := [actCustom], battery_actions := []
    current_block := "ac", action_index := 0, instants_triggered := false
    resume_queue := [], resume_commands_fired := false
    pending_notification_task := false, notification_sent_for_action := none }

/-- A locked manager state whose default block is one custom action. -/
def sLockedCustom : MState :=
  { default_actions := [actCustom], current_block := some "default",
    lock_state := { is_locked := true } }

/-- A locked manager state whose default block is one lock action. -/
def sLockedLock : MState :=
  { default_actions := [actLockPlain], current_block := some "default",
    lock_state := { is_locked := true } }

/-- An auto-paused manager state. -/
def sAutoPaused : MState := { paused := true }

/-- An unpaused manager state with one pre-warn stage due at 60 s. -/
def sNotify : MState :=
  { default_actions := [actNotify], current_block := some "default",
    cfg := some cfgNotify }

/-!
## Lemmas and claim theorems
-/


lemma rcfa_pres (s : MState) (a : IdleActionBlock) (cmd : String) :
    (run_command_for_action s a cmd).1.paused = s.paused ∧
    (run_command_for_action s a cmd).1.manually_paused = s.manually_paused ∧
    (run_command_for_action s a cmd).1.active_inhibitor_count = s.active_inhibitor_count ∧
    (run_command_for_action s a cmd).1.default_actions = s.default_actions ∧
    (run_command_for_action s a cmd).1.ac_actions = s.ac_actions ∧
    (run_command_for_action s a cmd).1.battery_actions = s.battery_actions ∧
    (run_command_for_action s a cmd).1.action_index = s.action_index ∧
    (run_command_for_action s a cmd).1.current_block = s.current_block := by
  unfold run_command_for_action
  repeat' split
  all_goals exact ⟨rfl, rfl, rfl, rfl, rfl, rfl, rfl, rfl⟩

lemma runRequests_pres (a : IdleActionBlock) (reqs : List ActionRequest)
    (s : MState) (effs : List Effect) :
    (runRequests a s effs reqs).1.paused = s.paused ∧
    (runRequests a s effs reqs).1.manually_paused = s.manually_paused ∧
    (runRequests a s effs reqs).1.active_inhibitor_count = s.active_inhibitor_count ∧
    (runRequests a s effs reqs).1.default_actions = s.default_actions ∧
    (runRequests a s effs reqs).1.ac_actions = s.ac_actions ∧
    (runRequests a s effs reqs).1.battery_actions = s.battery_actions ∧
    (runRequests a s effs reqs).1.action_index = s.action_index ∧
    (runRequests a s effs reqs).1.current_block = s.current_block := by
  induction reqs generalizing s effs with
  | nil => exact ⟨rfl, rfl, rfl, rfl, rfl, rfl, rfl, rfl⟩
  | cons r rest ih =>
    cases r with
    | runCommand cmd => simp [runRequests, ih, rcfa_pres]
    | skip p => exact ih s effs

lemma run_action_pres (env : Env) (s : MState) (a : IdleActionBlock) :
    (run_action env s a).1.paused = s.paused ∧
    (run_action env s a).1.manually_paused = s.manually_paused ∧
    (run_action env s a).1.active_inhibitor_count = s.active_inhibitor_count ∧
    (run_action env s a).1.default_actions = s.default_actions ∧
    (run_action env s a).1.ac_actions = s.ac_actions ∧
    (run_action env s a).1.battery_actions = s.battery_actions ∧
    (run_action env s a).1.action_index = s.action_index ∧
    (run_action env s a).1.current_block = s.current_block := by
  unfold run_action
  split
  · exact ⟨rfl, rfl, rfl, rfl, rfl, rfl, rfl, rfl⟩
  · split
    · exact ⟨rfl, rfl, rfl, rfl, rfl, rfl, rfl, rfl⟩
    · simp only [runRequests_pres]
      repeat' split
      all_goals exact ⟨rfl, rfl, rfl, rfl, rfl, rfl, rfl, rfl⟩

lemma fire_resume_queue_pres (s : MState) :
    (fire_resume_queue s).1.paused = s.paused ∧
    (fire_resume_queue s).1.manually_paused = s.manually_paused ∧
    (fire_resume_queue s).1.active_inhibitor_count = s.active_inhibitor_count ∧
    (fire_resume_queue s).1.default_actions = s.default_actions ∧
    (fire_resume_queue s).1.ac_actions = s.ac_actions ∧
    (fire_resume_queue s).1.battery_actions = s.battery_actions ∧
    (fire_resume_queue s).1.action_index = s.action_index ∧
    (fire_resume_queue s).1.current_block = s.current_block ∧
    (fire_resume_queue s).1.lock_state = s.lock_state := by
  unfold fire_resume_queue
  split <;> exact ⟨rfl, rfl, rfl, rfl, rfl, rfl, rfl, rfl, rfl⟩

lemma updateBlock_pres (bn : String) (s : MState) (l : List IdleActionBlock) :
    (updateBlock bn s l).paused = s.paused ∧
    (updateBlock bn s l).manually_paused = s.manually_paused ∧
    (updateBlock bn s l).active_inhibitor_count = s.active_inhibitor_count ∧
    (updateBlock bn s l).action_index = s.action_index ∧
    (updateBlock bn s l).current_block = s.current_block ∧
    (updateBlock bn s l).lock_state = s.lock_state ∧
    (updateBlock bn s l).resume_queue = s.resume_queue := by
  unfold updateBlock
  split <;> exact ⟨rfl, rfl, rfl, rfl, rfl, rfl, rfl⟩

lemma resetLockAdvance_flags (now debounce : Nat) (bn : String)
    (actions : List IdleActionBlock) (lock_index : Nat) (s : MState) :
    (resetLockAdvance now debounce bn actions lock_index s).paused = s.paused ∧
    (resetLockAdvance now debounce bn actions lock_index s).manually_paused = s.manually_paused ∧
    (resetLockAdvance now debounce bn actions lock_index s).active_inhibitor_count = s.active_inhibitor_count := by
  unfold resetLockAdvance
  refine ⟨?_, ?_, ?_⟩ <;>
    (dsimp only; split <;> (try split) <;> simp [updateBlock_pres])

lemma resetLockStage_flags (env : Env) (now debounce : Nat) (bn : String)
    (actions : List IdleActionBlock) (s : MState) :
    (resetLockStage env now debounce bn actions s).paused = s.paused ∧
    (resetLockStage env now debounce bn actions s).manually_paused = s.manually_paused ∧
    (resetLockStage env now debounce bn actions s).active_inhibitor_count = s.active_inhibitor_count := by
  unfold resetLockStage
  repeat' split
  all_goals (first
    | exact ⟨rfl, rfl, rfl⟩
    | (dsimp only; split_ifs <;> simp [resetLockAdvance_flags]))

lemma resetBrightnessStage_flags (s : MState) :
    (resetBrightnessStage s).1.paused = s.paused ∧
    (resetBrightnessStage s).1.manually_paused = s.manually_paused ∧
    (resetBrightnessStage s).1.active_inhibitor_count = s.active_inhibitor_count := by
  unfold resetBrightnessStage
  split <;> exact ⟨rfl, rfl, rfl⟩

lemma resetTimingStage_flags (now d : Nat) (s : MState) :
    (resetTimingStage now d s).paused = s.paused ∧
    (resetTimingStage now d s).manually_paused = s.manually_paused ∧
    (resetTimingStage now d s).active_inhibitor_count = s.active_inhibitor_count :=
  ⟨rfl, rfl, rfl⟩

lemma reset_flags (env : Env) (now : Nat) (s : MState) :
    (Manager.reset env now s).1.paused = s.paused ∧
    (Manager.reset env now s).1.manually_paused = s.manually_paused ∧
    (Manager.reset env now s).1.active_inhibitor_count = s.active_inhibitor_count := by
  unfold Manager.reset
  split
  · exact ⟨rfl, rfl, rfl⟩
  · dsimp only
    split <;> split <;>
      simp [fire_resume_queue_pres, resetLockStage_flags,
        resetTimingStage_flags, resetBrightnessStage_flags]

lemma trigger_instant_actions_flags (env : Env) (s : MState) :
    (trigger_instant_actions env s).1.paused = s.paused ∧
    (trigger_instant_actions env s).1.manually_paused = s.manually_paused ∧
    (trigger_instant_actions env s).1.active_inhibitor_count = s.active_inhibitor_count := by
  unfold trigger_instant_actions
  split
  · exact ⟨rfl, rfl, rfl⟩
  · have h : ∀ (l : List IdleActionBlock) (acc : MState × List Effect),
        (l.foldl (fun (acc : MState × List Effect) a =>
          ((run_action env acc.1 a).1, acc.2 ++ (run_action env acc.1 a).2)) acc).1.paused
            = acc.1.paused ∧
        (l.foldl (fun (acc : MState × List Effect) a =>
          ((run_action env acc.1 a).1, acc.2 ++ (run_action env acc.1 a).2)) acc).1.manually_paused
            = acc.1.manually_paused ∧
        (l.foldl (fun (acc : MState × List Effect) a =>
          ((run_action env acc.1 a).1, acc.2 ++ (run_action env acc.1 a).2)) acc).1.active_inhibitor_count
            = acc.1.active_inhibitor_count := by
      intro l
      induction l with
      | nil => exact fun acc => ⟨rfl, rfl, rfl⟩
      | cons x xs ih => intro acc; simp [List.foldl, ih, run_action_pres]
    simp [h]

lemma update_current_block_flags (s : MState) :
    (update_current_block s).1.paused = s.paused ∧
    (update_current_block s).1.manually_paused = s.manually_paused ∧
    (update_current_block s).1.active_inhibitor_count = s.active_inhibitor_count := by
  unfold update_current_block
  repeat' split
  all_goals (first
    | exact ⟨rfl, rfl, rfl⟩
    | (dsimp only; split_ifs <;> exact ⟨rfl, rfl, rfl⟩))

lemma set_on_battery_flags (b : Bool) (s : MState) :
    (set_on_battery b s).1.paused = s.paused ∧
    (set_on_battery b s).1.manually_paused = s.manually_paused ∧
    (set_on_battery b s).1.active_inhibitor_count = s.active_inhibitor_count := by
  unfold set_on_battery
  split
  · simp [update_current_block_flags]
  · exact ⟨rfl, rfl, rfl⟩



lemma pause_flagsOk (m : Bool) (s : MState)
    (h : (s.paused && s.manually_paused) = false) :
    ((Manager.pause m s).paused && (Manager.pause m s).manually_paused) = false := by
  unfold Manager.pause
  split_ifs <;> simp_all

lemma resume_flagsOk (m : Bool) (s : MState)
    (h : (s.paused && s.manually_paused) = false) :
    ((Manager.resume m s).paused && (Manager.resume m s).manually_paused) = false := by
  unfold Manager.resume
  split_ifs <;> simp_all

lemma incr_flagsOk (s : MState)
    (h : (s.paused && s.manually_paused) = false) :
    ((incr_active_inhibitor s).1.paused &&
      (incr_active_inhibitor s).1.manually_paused) = false := by
  unfold incr_active_inhibitor
  dsimp only
  split_ifs <;> simp_all

lemma decr_flagsOk (env : Env) (now : Nat) (s : MState)
    (h : (s.paused && s.manually_paused) = false) :
    ((decr_active_inhibitor env now s).1.paused &&
      (decr_active_inhibitor env now s).1.manually_paused) = false := by
  unfold decr_active_inhibitor
  dsimp only
  split_ifs <;> simp_all [fire_resume_queue_pres, reset_flags]

lemma handle_event_flagsOk (env : Env) (now : Nat) (e : Event) (s : MState)
    (h : (s.paused && s.manually_paused) = false) :
    ((handle_event env now e s).1.paused &&
      (handle_event env now e s).1.manually_paused) = false := by
  cases e with
  | acConnected =>
    simp [handle_event, trigger_instant_actions_flags, set_on_battery_flags, h]
  | acDisconnected =>
    simp [handle_event, trigger_instant_actions_flags, set_on_battery_flags, h]
  | inputActivity => simp [handle_event, reset_flags, h]
  | suspend => exact pause_flagsOk false s h
  | resume => exact resume_flagsOk false s h
  | wake =>
    have hr := resume_flagsOk false s h
    simp only [handle_event]
    simp only [reset_flags]
    exact hr
  | lockScreenDetected => simp [handle_event, Manager.advance_past_lock, h]
  | mediaPlaybackActive => exact pause_flagsOk false s h
  | mediaPlaybackEnded => exact resume_flagsOk false s h
  | lidClosed =>
    simp only [handle_event]
    repeat' split
    all_goals simp [run_action_pres, h]
  | lidOpened =>
    simp only [handle_event]
    repeat' split
    all_goals (first
      | (simp only [reset_flags]; exact resume_flagsOk false s h)
      | simp [h])
  | loginctlLock =>
    simp only [handle_event]
    repeat' split
    all_goals simp [Manager.advance_past_lock, h]
  | loginctlUnlock => simp [handle_event, reset_flags, h]

lemma runOps_flagsOk (ops : List InhibOp) (s : MState)
    (h : (s.paused && s.manually_paused) = false) :
    ((runOps s ops).paused && (runOps s ops).manually_paused) = false := by
  induction ops generalizing s with
  | nil => exact h
  | cons op rest ih =>
    refine ih (applyOp op s) ?_
    cases op with
    | incr => exact incr_flagsOk s h
    | decr env now => exact decr_flagsOk env now s h
    | pauseOp m => exact pause_flagsOk m s h
    | resumeOp m => exact resume_flagsOk m s h
    | ev env now e => exact handle_event_flagsOk env now e s h



lemma clearTriggeredList_get (locked past : Bool) (l : List IdleActionBlock) (i : Nat) :
    (clearTriggeredList locked past l).get? i =
      (l.get? i).map (fun a =>
        if a.is_instant || (locked && (past || lockAtOrBefore l i)) then a
        else { a with last_triggered := none }) := by
  induction l generalizing past i with
  | nil => rfl
  | cons a rest ih =>
    cases i with
    | zero =>
      simp only [clearTriggeredList, lockAtOrBefore, List.get?]
      simp [List.any]
      split_ifs <;> simp_all
    | succ j =>
      simp only [clearTriggeredList, List.get?]
      rw [ih]
      cases hr : rest.get? j with
      | none => rfl
      | some b =>
        simp only [Option.map_some']
        have hb : lockAtOrBefore (a :: rest) (j + 1) =
            ((a.kind == IdleAction.lockScreen) || lockAtOrBefore rest j) := by
          simp [lockAtOrBefore, List.take, List.any]
        rw [hb]
        split_ifs <;> simp_all

/-- Claim C4 (amended): stage `i` keeps its `last_triggered` exactly when it
is instant or, while locked, some stage at or before it is the LockScreen
action; the LockScreen stage itself is therefore preserved, not cleared. -/
theorem clear_triggered_stage_rule (q : ActionQueue) (locked : Bool) (i : Nat) :
    ((q.clear_triggered_before_lock locked).default_actions.get? i =
      (q.default_actions.get? i).map (clearSpec locked q.default_actions i)) ∧
    ((q.clear_triggered_before_lock locked).ac_actions.get? i =
      (q.ac_actions.get? i).map (clearSpec locked q.ac_actions i)) ∧
    ((q.clear_triggered_before_lock locked).battery_actions.get? i =
      (q.battery_actions.get? i).map (clearSpec locked q.battery_actions i)) := by
  unfold ActionQueue.clear_triggered_before_lock clearSpec
  refine ⟨?_, ?_, ?_⟩ <;> (rw [clearTriggeredList_get]; simp)

theorem clear_triggered_stage_rule_witness :
    ((qLock.clear_triggered_before_lock true).default_actions.get? 0 =
      (qLock.default_actions.get? 0).map (clearSpec true qLock.default_actions 0)) ∧
    ((qLock.clear_triggered_before_lock true).ac_actions.get? 0 =
      (qLock.ac_actions.get? 0).map (clearSpec true qLock.ac_actions 0)) ∧
    ((qLock.clear_triggered_before_lock true).battery_actions.get? 0 =
      (qLock.battery_actions.get? 0).map (clearSpec true qLock.battery_actions 0)) :=
  clear_triggered_stage_rule qLock true 0

/-- Claim C4, as stated, is false: with a single stamped LockScreen stage
and the session locked, the stage at the lock keeps its stamp although the
claim says every stage at or before the lock is cleared. -/
theorem lock_stage_not_cleared :
    ((qLock.clear_triggered_before_lock true).default_actions.map
      (fun a => a.last_triggered)) = [some 3] ∧
    ¬ ((qLock.clear_triggered_before_lock true).default_actions.map
      (fun a => a.last_triggered)) = [none] := by
  constructor <;> decide



/-- Claim C1 (amended): across every operation sequence the inhibitor count
stays non-negative and the automatic `paused` flag and `manually_paused`
are never simultaneously set.  The claimed biconditional fails in both
directions (see the counterexample). -/
theorem inhibitor_pause_flags_invariant (is_laptop : Bool) (now : Nat)
    (cfg : Config) (ops : List InhibOp) :
    0 ≤ (runOps (MState.new is_laptop now cfg) ops).active_inhibitor_count ∧
    ¬((runOps (MState.new is_laptop now cfg) ops).paused = true ∧
      (runOps (MState.new is_laptop now cfg) ops).manually_paused = true) := by
  refine ⟨Nat.zero_le _, ?_⟩
  have h := runOps_flagsOk ops (MState.new is_laptop now cfg) rfl
  intro hc
  rw [hc.1, hc.2] at h
  cases h

theorem inhibitor_pause_flags_invariant_witness :
    0 ≤ (runOps (MState.new false 0 cfg0) [InhibOp.incr]).active_inhibitor_count ∧
    ¬((runOps (MState.new false 0 cfg0) [InhibOp.incr]).paused = true ∧
      (runOps (MState.new false 0 cfg0) [InhibOp.incr]).manually_paused = true) :=
  inhibitor_pause_flags_invariant false 0 cfg0 [InhibOp.incr]

/-- Claim C1, as stated, is false: `pause(manual)` leaves `paused = false`
with `manually_paused = true`, and an auto-pause event (Suspend) sets
`paused = true` with a zero inhibitor count and no manual pause. -/
theorem claimed_pause_invariant_refuted :
    ¬ claimed_pause_invariant (runOps (MState.new false 0 cfg0) [InhibOp.pauseOp true]) ∧
    ¬ claimed_pause_invariant (runOps (MState.new false 0 cfg0) [InhibOp.ev env0 0 Event.suspend]) := by
  constructor <;> decide

/-- Claim C7 (amended): `pause(manual); resume(manual)` restores the exact
starting state whenever the starting state was neither auto- nor manually
paused. -/
theorem pause_resume_roundtrip (s : MState) (hp : s.paused = false)
    (hm : s.manually_paused = false) :
    Manager.resume true (Manager.pause true s) = s := by
  cases s
  simp_all [Manager.pause, Manager.resume]

theorem pause_resume_roundtrip_witness :
    Manager.resume true (Manager.pause true ({} : MState)) = ({} : MState) :=
  pause_resume_roundtrip {} rfl rfl

/-- Claim C7, as stated, is false: from an auto-paused state the pair
`pause(manual); resume(manual)` ends unpaused, not in the original state. -/
theorem pause_resume_not_roundtrip :
    Manager.resume true (Manager.pause true sAutoPaused) ≠ sAutoPaused := by
  decide

/-- Claim C10: a `decr_active_inhibitor` call at count 0 returns the state
unchanged with no effects: no underflow, no pause change, no reset, no
resume commands. -/
theorem decr_at_zero_noop (env : Env) (now : Nat) (s : MState)
    (h : s.active_inhibitor_count = 0) :
    decr_active_inhibitor env now s = (s, []) := by
  unfold decr_active_inhibitor
  simp [h]

theorem decr_at_zero_noop_witness :
    decr_active_inhibitor env0 0 ({} : MState) = (({} : MState), []) :=
  decr_at_zero_noop env0 0 {} rfl

/-- Claim C5 (amended): `determine_block` has no battery → ac cascade — on
battery with an empty battery block it returns `default` directly; off
battery it returns `ac` when non-empty else `default`; a desktop chassis
always derives the `default` block. -/
theorem determine_block_no_cascade :
    (∀ (q : ActionQueue) (ob : Bool),
      q.determine_block ob =
        if ob then (if q.battery_actions.isEmpty then "default" else "battery")
        else (if q.ac_actions.isEmpty then "default" else "ac")) ∧
    (∀ s : MState, s.on_battery = none →
      (update_current_block s).1.current_block = some "default") := by
  constructor
  · intro q ob
    unfold ActionQueue.determine_block
    split_ifs <;> simp_all
  · intro s h
    unfold update_current_block
    rw [h]
    dsimp only
    split_ifs with h2
    · rfl
    · simpa using h2

theorem determine_block_no_cascade_witness :
    ActionQueue.determine_block qAcOnly true = "default" ∧
    (update_current_block ({ on_battery := none } : MState)).1.current_block =
      some "default" :=
  ⟨(determine_block_no_cascade.1 qAcOnly true).trans (by decide),
   determine_block_no_cascade.2 { on_battery := none } rfl⟩

/-- Claim C5, as stated, is false: on battery with an empty battery block
and a non-empty ac block the code returns `default`, not the claimed
cascade's `ac`. -/
theorem determine_block_cascade_refuted :
    ActionQueue.determine_block qAcOnly true ≠ claimed_determine_block qAcOnly true := by
  decide



lemma optMin_eq_optMin2 (acc : Option Nat) (t : Nat) :
    optMin acc t = optMin2 acc (some t) := by
  cases acc <;> rfl

lemma optMin2_assoc (a b c : Option Nat) :
    optMin2 (optMin2 a b) c = optMin2 a (optMin2 b c) := by
  cases a <;> cases b <;> cases c <;> simp [optMin2, Nat.min_assoc]

lemma optMin2_none_right (a : Option Nat) : optMin2 a none = a := by
  cases a <;> rfl

lemma min?_cons_optMin2 (x : Nat) (xs : List Nat) :
    (x :: xs).min? = optMin2 (some x) xs.min? := by
  rw [List.min?_cons]
  cases h : xs.min? <;> simp [optMin2, Option.elim]

lemma foldl_optMin_min? (keep : Nat × IdleActionBlock → Bool)
    (f : Nat × IdleActionBlock → Nat) (l : List (Nat × IdleActionBlock))
    (acc : Option Nat) :
    l.foldl (fun acc ia => if keep ia then optMin acc (f ia) else acc) acc =
      optMin2 acc ((l.filter keep).map f).min? := by
  induction l generalizing acc with
  | nil => simp [optMin2_none_right]
  | cons ia rest ih =>
    by_cases h : keep ia = true
    · rw [List.foldl_cons, if_pos h, ih, optMin_eq_optMin2, optMin2_assoc,
        List.filter_cons_of_pos (by exact h), List.map_cons, min?_cons_optMin2]
    · rw [List.foldl_cons, if_neg h, ih,
        List.filter_cons_of_neg (by simpa using h)]

lemma nextActionTimeFold_eq_keep (q : ActionQueue)
    (actions : List IdleActionBlock) (il : Bool) (la : Nat)
    (db : Option Nat) (ne : Bool) (ns : Nat) (acc : Option Nat)
    (ia : Nat × IdleActionBlock) :
    nextActionTimeFold q actions il la db ne ns acc ia =
      if eligibleAction il ia then
        optMin acc (wakeTime q ne ns ia.1 ia.2 (originalFireTime actions la db ia.1 ia.2))
      else acc := by
  unfold nextActionTimeFold eligibleAction
  cases h : (ia.2.kind == IdleAction.lockScreen && il) <;> simp [h]

/-- Claim C2 (amended): `next_action_time` returns the minimum, over the
current block's actions that are not a LockScreen stage while locked, of
the per-action wake instant — the source's fire rule, whose stage-0 base is
`debounce_until` when set (not `max(last_activity, debounce_until)`) else
`last_activity`, pushed out by `notify_seconds` when that stage's pre-warn
was already sent. -/
theorem next_action_time_characterization (q : ActionQueue) (il : Bool)
    (la : Nat) (db : Option Nat) (ne : Bool) (ns : Nat) :
    q.next_action_time il la db ne ns = actual_next_action_time q il la db ne ns := by
  unfold ActionQueue.next_action_time actual_next_action_time
  by_cases he : q.get_active_actions.isEmpty
  · have : q.get_active_actions = [] := by simpa [List.isEmpty_iff] using he
    simp [he, this]
  · simp only [he, if_false]
    have hfun :
        nextActionTimeFold q q.get_active_actions il la db ne ns =
          (fun acc ia =>
            if eligibleAction il ia then
              optMin acc (wakeTime q ne ns ia.1 ia.2
                (originalFireTime q.get_active_actions la db ia.1 ia.2))
            else acc) :=
      funext fun acc => funext fun ia =>
        nextActionTimeFold_eq_keep q q.get_active_actions il la db ne ns acc ia
    show q.get_active_actions.enum.foldl _ none = _
    rw [hfun, foldl_optMin_min?]
    rfl

theorem next_action_time_characterization_witness :
    qSeven.next_action_time false 10 (some 5) false 0 =
      actual_next_action_time qSeven false 10 (some 5) false 0 :=
  next_action_time_characterization qSeven false 10 (some 5) false 0

/-- Claim C2, as stated, is false at two points: the stage-0 base is the
debounce instant when set even if `last_activity` is later (not their max),
and a sent pre-warn pushes the returned wake instant past the fire time. -/
theorem next_fire_rule_refuted :
    qSeven.next_action_time false 10 (some 5) false 0 ≠
      claimed_next_action_time qSeven false 10 (some 5) ∧
    qNotify.next_action_time false 0 none true 5 ≠
      claimed_next_action_time qNotify false 0 none := by
  constructor <;> decide



lemma selectBlock_updateBlock (bn : String) (s : MState) (l : List IdleActionBlock) :
    selectBlock bn (updateBlock bn s l) = l := by
  unfold selectBlock updateBlock
  split <;> split <;> simp_all

lemma length_setTriggeredAt (l : List IdleActionBlock) (i t : Nat) :
    (setTriggeredAt l i t).length = l.length := by
  unfold setTriggeredAt
  split <;> simp

lemma selectBlock_pres_cb (bn : String) (s : MState) (l : List IdleActionBlock) :
    (updateBlock bn s l).current_block = s.current_block :=
  (updateBlock_pres bn s l).2.2.2.2.1

lemma fireStage_fired (env : Env) (now : Nat) (bn : String)
    (actions : List IdleActionBlock) (index : Nat) (action : IdleActionBlock)
    (s : MState) :
    (fireStage env now bn actions index action s).fired = some action := rfl

set_option maxHeartbeats 2000000 in
lemma body_locked_no_lock (env : Env) (now : Nat) (s : MState)
    (hl : s.lock_state.is_locked = true) (a : IdleActionBlock)
    (hf : (checkTimeoutsBody env now s).fired = some a) :
    a.kind ≠ IdleAction.lockScreen := by
  unfold checkTimeoutsBody at hf
  dsimp only at hf
  repeat' split at hf
  all_goals simp_all [fireStage_fired]

/-- Claim C6: while the session is locked, `check_timeouts` never hands a
LockScreen action to `run_action` — a LockScreen stage at the current index
returns early and nothing fires. -/
theorem locked_never_fires_lock (env : Env) (now : Nat) (s : MState)
    (hl : s.lock_state.is_locked = true) (a : IdleActionBlock)
    (hf : (Manager.check_timeouts env now s).fired = some a) :
    a.kind ≠ IdleAction.lockScreen := by
  unfold Manager.check_timeouts at hf
  split at hf
  · cases hf
  · split at hf
    · split at hf
      · cases hf
      · refine body_locked_no_lock env now _ ?_ a hf
        exact hl
    · exact body_locked_no_lock env now _ hl a hf

theorem locked_never_fires_lock_witness :
    (Manager.check_timeouts env0 10 sLockedCustom).fired = some actCustom ∧
    actCustom.kind ≠ IdleAction.lockScreen :=
  ⟨by decide, locked_never_fires_lock env0 10 sLockedCustom rfl actCustom (by decide)⟩



lemma selectBlock_congr (bn : String) (s' s : MState)
    (h1 : s'.default_actions = s.default_actions)
    (h2 : s'.ac_actions = s.ac_actions)
    (h3 : s'.battery_actions = s.battery_actions) :
    selectBlock bn s' = selectBlock bn s := by
  unfold selectBlock
  split <;> simp [h1, h2, h3]

lemma run_action_lock_state_nonlock (env : Env) (s : MState)
    (a : IdleActionBlock) (h : (a.kind == IdleAction.lockScreen) = false) :
    (run_action env s a).1.lock_state = s.lock_state := by
  unfold run_action
  rw [h]
  simp only [Bool.false_and, Bool.false_eq_true, if_false]
  unfold prepare_action
  cases hk : a.kind
  all_goals (first | (rw [hk] at h; cases h) | skip)
  all_goals (
    dsimp only
    repeat' split
    all_goals (
      simp [runRequests, run_command_for_action, hk]))

lemma run_action_stays_locked (env : Env) (s : MState) (a : IdleActionBlock)
    (h : s.lock_state.is_locked = true) :
    (run_action env s a).1.lock_state.is_locked = true := by
  by_cases hk : (a.kind == IdleAction.lockScreen) = true
  · unfold run_action
    rw [hk]
    simp only [Bool.true_and]
    split
    · exact h
    · rw [h]
  · rw [run_action_lock_state_nonlock env s a (by simpa using hk)]
    exact h

lemma triggerLoop_pres (env : Env) (l : List IdleActionBlock) (s : MState) :
    (triggerLoop env s l).1.default_actions = s.default_actions ∧
    (triggerLoop env s l).1.ac_actions = s.ac_actions ∧
    (triggerLoop env s l).1.battery_actions = s.battery_actions ∧
    (triggerLoop env s l).1.action_index = s.action_index ∧
    (triggerLoop env s l).1.current_block = s.current_block := by
  induction l generalizing s with
  | nil => exact ⟨rfl, rfl, rfl, rfl, rfl⟩
  | cons a rest ih =>
    unfold triggerLoop
    split
    · exact ih s
    · dsimp only
      have hr := run_action_pres env s a
      have hi := ih (run_action env s a).1
      exact ⟨hi.1.trans hr.2.2.2.1, hi.2.1.trans hr.2.2.2.2.1,
        hi.2.2.1.trans hr.2.2.2.2.2.1, hi.2.2.2.1.trans hr.2.2.2.2.2.2.1,
        hi.2.2.2.2.trans hr.2.2.2.2.2.2.2⟩

lemma triggerLoop_locked (env : Env) (l : List IdleActionBlock) (s : MState)
    (h : s.lock_state.is_locked = true) :
    (triggerLoop env s l).2.1 =
      l.filter (fun a => !(a.kind == IdleAction.lockScreen)) := by
  induction l generalizing s with
  | nil => rfl
  | cons a rest ih =>
    unfold triggerLoop
    by_cases hk : (a.kind == IdleAction.lockScreen) = true
    · rw [if_pos (by rw [hk, h]; rfl)]
      rw [ih s h, List.filter_cons_of_neg (by simp [hk])]
    · rw [if_neg (by rw [h]; simp [hk])]
      dsimp only
      rw [List.filter_cons_of_pos (by simp [hk])]
      rw [ih (run_action env s a).1 (run_action_stays_locked env s a h)]

lemma triggerLoop_noLock (env : Env) (l : List IdleActionBlock) (s : MState)
    (h : (l.all (fun a => !(a.kind == IdleAction.lockScreen))) = true) :
    (triggerLoop env s l).2.1 = l := by
  induction l generalizing s with
  | nil => rfl
  | cons a rest ih =>
    rw [List.all_cons, Bool.and_eq_true] at h
    have hk : (a.kind == IdleAction.lockScreen) = false := by simpa using h.1
    unfold triggerLoop
    rw [if_neg (by simp [hk])]
    dsimp only
    rw [ih (run_action env s a).1 h.2]



lemma triggerLoop_le_one_lock (env : Env) (l : List IdleActionBlock) (s : MState)
    (hlk : s.lock_state.is_locked = false)
    (hc : l.countP (fun a => a.kind == IdleAction.lockScreen) ≤ 1) :
    (triggerLoop env s l).2.1 = l := by
  induction l generalizing s with
  | nil => rfl
  | cons a rest ih =>
    unfold triggerLoop
    rw [if_neg (by rw [hlk]; simp)]
    dsimp only
    by_cases hk : (a.kind == IdleAction.lockScreen) = true
    · have hrest : rest.countP (fun a => a.kind == IdleAction.lockScreen) = 0 := by
        have hcc : (a :: rest).countP (fun a => a.kind == IdleAction.lockScreen) =
            rest.countP (fun a => a.kind == IdleAction.lockScreen) + 1 := by
          rw [List.countP_cons]
          simp [hk]
        rw [hcc] at hc
        omega
      have hall : (rest.all (fun a => !(a.kind == IdleAction.lockScreen))) = true := by
        rw [List.all_eq_true]
        intro x hx
        by_contra hxne
        have : 0 < rest.countP (fun a => a.kind == IdleAction.lockScreen) :=
          List.countP_pos_iff.mpr ⟨x, hx, by simpa using hxne⟩
        omega
      rw [triggerLoop_noLock env rest _ hall]
    · have hcc : (a :: rest).countP (fun a => a.kind == IdleAction.lockScreen) =
          rest.countP (fun a => a.kind == IdleAction.lockScreen) := by
        rw [List.countP_cons]
        simp [hk]
      rw [hcc] at hc
      have hlk2 : (run_action env s a).1.lock_state.is_locked = false := by
        rw [run_action_lock_state_nonlock env s a (by simpa using hk)]
        exact hlk
      rw [ih (run_action env s a).1 hlk2 hc]

lemma run_action_lock_after (env : Env) (s : MState) (a : IdleActionBlock) :
    (run_action env s a).1.lock_state.is_locked =
      (s.lock_state.is_locked ||
        (a.kind == IdleAction.lockScreen &&
          !containsSubstr a.command loginctlStr)) := by
  unfold run_action prepare_action
  repeat' split
  all_goals simp_all [runRequests, run_command_for_action]
  all_goals (
    cases hcfg : s.cfg
    · simp [hcfg]
    · rename_i cfg
      cases hcmd : cfg.pre_suspend_command <;> simp [hcfg, hcmd])

lemma triggerLoop_fired (env : Env) (l : List IdleActionBlock) (s : MState) :
    (triggerLoop env s l).2.1 = triggerFired s.lock_state.is_locked l := by
  induction l generalizing s with
  | nil => rfl
  | cons a rest ih =>
    unfold triggerLoop triggerFired
    by_cases hc : (a.kind == IdleAction.lockScreen && s.lock_state.is_locked) = true
    · rw [if_pos hc, if_pos hc]
      exact ih s
    · rw [if_neg hc, if_neg hc]
      dsimp only
      rw [ih (run_action env s a).1, run_action_lock_after]



/-- Claim C8 (amended): `trigger all` fires every action of the active
block in order except LockScreen actions while `lock_state.is_locked` holds
at that point of the loop — the flag starts as the session's lock state and
becomes set once a non-loginctl LockScreen action of the same run fires, so
a later lock stage is then skipped (the `triggerFired` fold, proved equal
to the loop with no restriction on the block); in particular, while locked
exactly the non-LockScreen actions fire, and an unlocked run with at most
one lock stage fires everything.  Afterwards every action of the block gets
`last_triggered = now` and `action_index = len - 1`. -/
theorem trigger_all_behavior (env : Env) (now : Nat) (s : MState)
    (h : selectBlock (resetBlockName s) s ≠ []) :
    (trigger_all_idle_actions env now s).2.1 =
      triggerFired s.lock_state.is_locked (selectBlock (resetBlockName s) s) ∧
    (s.lock_state.is_locked = true →
      (trigger_all_idle_actions env now s).2.1 =
        (selectBlock (resetBlockName s) s).filter
          (fun a => !(a.kind == IdleAction.lockScreen))) ∧
    (s.lock_state.is_locked = false →
      (selectBlock (resetBlockName s) s).countP
          (fun a => a.kind == IdleAction.lockScreen) ≤ 1 →
      (trigger_all_idle_actions env now s).2.1 = selectBlock (resetBlockName s) s) ∧
    selectBlock (resetBlockName s) (trigger_all_idle_actions env now s).1 =
      (selectBlock (resetBlockName s) s).map
        (fun a => { a with last_triggered := some now }) ∧
    (trigger_all_idle_actions env now s).1.action_index =
      (selectBlock (resetBlockName s) s).length - 1 := by
  unfold trigger_all_idle_actions
  dsimp only
  rw [if_neg (by simpa [List.isEmpty_iff] using h)]
  dsimp only
  have hp := triggerLoop_pres env (selectBlock (resetBlockName s) s) s
  have hsel :
      selectBlock (resetBlockName s)
          (triggerLoop env s (selectBlock (resetBlockName s) s)).1 =
        selectBlock (resetBlockName s) s :=
    selectBlock_congr _ _ _ hp.1 hp.2.1 hp.2.2.1
  refine ⟨?_, ?_, ?_, ?_, ?_⟩
  · exact triggerLoop_fired env _ s
  · intro hl
    exact triggerLoop_locked env _ s hl
  · intro hl hc
    exact triggerLoop_le_one_lock env _ s hl hc
  · have hidx :
        selectBlock (resetBlockName s)
            ({ updateBlock (resetBlockName s)
                (triggerLoop env s (selectBlock (resetBlockName s) s)).1
                ((selectBlock (resetBlockName s)
                    (triggerLoop env s (selectBlock (resetBlockName s) s)).1).map
                  (fun a => { a with last_triggered := some now })) with
              action_index :=
                (selectBlock (resetBlockName s)
                    (triggerLoop env s (selectBlock (resetBlockName s) s)).1).length - 1 }) =
          selectBlock (resetBlockName s)
            (updateBlock (resetBlockName s)
              (triggerLoop env s (selectBlock (resetBlockName s) s)).1
              ((selectBlock (resetBlockName s)
                  (triggerLoop env s (selectBlock (resetBlockName s) s)).1).map
                (fun a => { a with last_triggered := some now }))) :=
      selectBlock_congr _ _ _ rfl rfl rfl
    rw [hidx, selectBlock_updateBlock, hsel]
  · rw [hsel]

theorem trigger_all_behavior_witness :
    (trigger_all_idle_actions env0 5 sTwoLocks).2.1 = [actLockA] ∧
    (trigger_all_idle_actions env0 5 sTwoLocks).1.action_index = 1 := by
  have h := trigger_all_behavior env0 5 sTwoLocks (by decide)
  exact ⟨h.1.trans (by decide), h.2.2.2.2.trans (by decide)⟩

/-- Claim C8, as stated, is false: in a locked state the LockScreen action
of the block is skipped, so not every action fires. -/
theorem trigger_all_claim_refuted :
    (trigger_all_idle_actions env0 5 sLockedLock).2.1 ≠
      selectBlock (resetBlockName sLockedLock) sLockedLock := by
  decide



lemma selectBlock_set_index (bn : String) (X : MState) (n : Nat) :
    selectBlock bn { X with action_index := n } = selectBlock bn X :=
  selectBlock_congr bn _ X rfl rfl rfl

lemma selectBlock_set_rcf (bn : String) (X : MState) (b : Bool) :
    selectBlock bn { X with resume_commands_fired := b } = selectBlock bn X :=
  selectBlock_congr bn _ X rfl rfl rfl

lemma selectBlock_set_rq (bn : String) (X : MState) (q : List IdleActionBlock) :
    selectBlock bn { X with resume_queue := q } = selectBlock bn X :=
  selectBlock_congr bn _ X rfl rfl rfl

lemma selectBlock_run_action (bn : String) (env : Env) (s : MState)
    (a : IdleActionBlock) :
    selectBlock bn (run_action env s a).1 = selectBlock bn s :=
  selectBlock_congr bn _ s (run_action_pres env s a).2.2.2.1
    (run_action_pres env s a).2.2.2.2.1 (run_action_pres env s a).2.2.2.2.2.1

lemma fireStage_index_lt (env : Env) (now : Nat) (bn : String)
    (actions : List IdleActionBlock) (index : Nat) (action : IdleActionBlock)
    (s : MState) (hne : actions ≠ []) :
    (fireStage env now bn actions index action s).state.action_index <
      actions.length := by
  have hpos := List.length_pos.mpr hne
  unfold fireStage
  dsimp only
  simp only [run_action_pres]
  repeat' split
  all_goals simp_all [updateBlock_pres]
  all_goals omega

lemma fireStage_select_length (env : Env) (now : Nat) (bn : String)
    (actions : List IdleActionBlock) (index : Nat) (action : IdleActionBlock)
    (s : MState) :
    (selectBlock bn (fireStage env now bn actions index action s).state).length =
      actions.length := by
  unfold fireStage
  dsimp only
  rw [selectBlock_run_action]
  have h1 := selectBlock_updateBlock bn s (setTriggeredAt actions index now)
  generalize hg : updateBlock bn s (setTriggeredAt actions index now) = t1
  rw [hg] at h1
  have hlen : (selectBlock bn t1).length = actions.length := by
    rw [h1, length_setTriggeredAt]
  repeat' split
  all_goals simp only [selectBlock_set_rq, selectBlock_set_rcf, selectBlock_set_index,
    selectBlock_updateBlock, length_setTriggeredAt, hlen]
  all_goals first
    | exact Eq.trans (congrArg List.length
        (selectBlock_congr bn _ t1 rfl rfl rfl)) hlen
    | exact Eq.trans (congrArg List.length (Eq.trans
        (selectBlock_congr bn _ _ rfl rfl rfl)
        (selectBlock_updateBlock bn _ _)))
        (by rw [length_setTriggeredAt, hlen])



lemma fireStage_cb (env : Env) (now : Nat) (bn : String)
    (actions : List IdleActionBlock) (index : Nat) (action : IdleActionBlock)
    (s : MState) :
    (fireStage env now bn actions index action s).state.current_block =
      s.current_block := by
  unfold fireStage
  dsimp only
  simp only [run_action_pres]
  repeat' split
  all_goals simp_all [updateBlock_pres]

lemma fireStage_goal (env : Env) (now : Nat) (bn : String)
    (actions : List IdleActionBlock) (index : Nat) (action : IdleActionBlock)
    (s1 : MState) (hcb : s1.current_block = some bn)
    (hne : actions ≠ []) :
    (fireStage env now bn actions index action s1).state.action_index <
      (stateActiveActions (fireStage env now bn actions index action s1).state).length := by
  have hc := fireStage_cb env now bn actions index action s1
  unfold stateActiveActions
  rw [hc, hcb]
  dsimp only [Option.getD]
  rw [fireStage_select_length]
  exact fireStage_index_lt env now bn actions index action s1 hne

lemma body_fire_shape (env : Env) (now : Nat) (s : MState) :
    (checkTimeoutsBody env now s).fired = none ∨
    ∃ (s1 : MState) (index : Nat) (action : IdleActionBlock),
      s1.current_block = some (resetBlockName s) ∧
      selectBlock (resetBlockName s) s1 ≠ [] ∧
      checkTimeoutsBody env now s =
        fireStage env now (resetBlockName s) (selectBlock (resetBlockName s) s1)
          index action s1 := by
  unfold checkTimeoutsBody
  dsimp only
  split
  · split
    · exact Or.inl rfl
    · split
      · exact Or.inl rfl
      · split
        · exact Or.inl rfl
        · split
          · refine Or.inr ⟨_, _, _, ?_, ?_, rfl⟩
            · rfl
            · rename_i hget hskip htime
              intro h0
              rw [h0] at hget
              simp at hget
          · exact Or.inl rfl
  · split
    · exact Or.inl rfl
    · split
      · exact Or.inl rfl
      · split
        · exact Or.inl rfl
        · split
          · refine Or.inr ⟨_, _, _, ?_, ?_, rfl⟩
            · rename_i hcb hempty hx hact hget hskip htime
              simpa using hcb
            · rename_i hget hskip htime
              intro h0
              rw [h0] at hget
              simp at hget
          · exact Or.inl rfl

lemma check_timeouts_gates (env : Env) (now : Nat) (s : MState)
    (a : IdleActionBlock)
    (hf : (Manager.check_timeouts env now s).fired = some a) :
    ∃ s0 : MState, Manager.check_timeouts env now s = checkTimeoutsBody env now s0 := by
  unfold Manager.check_timeouts at hf ⊢
  split at hf
  · cases hf
  · split at hf
    · split at hf
      · cases hf
      · rename_i hp hx hpt hd hlt
        rw [if_neg hp, if_neg hlt]
        exact ⟨_, rfl⟩
    · rename_i hp hx hd
      rw [if_neg hp]
      exact ⟨_, rfl⟩



/-- Claim C9: every queue-advancing operation leaves the cursor strictly
inside a non-empty block — `advance_index` clamps at `len - 1`, a
`check_timeouts` fire leaves `action_index < len` of the active block, and
`trigger all` sets exactly `len - 1`. -/
theorem queue_index_clamped :
    (∀ q : ActionQueue, q.get_active_actions ≠ [] →
      (q.advance_index).action_index < q.get_active_actions.length) ∧
    (∀ (env : Env) (now : Nat) (s : MState) (a : IdleActionBlock),
      (Manager.check_timeouts env now s).fired = some a →
      (Manager.check_timeouts env now s).state.action_index <
        (stateActiveActions (Manager.check_timeouts env now s).state).length) ∧
    (∀ (env : Env) (now : Nat) (s : MState),
      selectBlock (resetBlockName s) s ≠ [] →
      (trigger_all_idle_actions env now s).1.action_index =
        (selectBlock (resetBlockName s) s).length - 1) := by
  refine ⟨?_, ?_, ?_⟩
  · intro q h
    unfold ActionQueue.advance_index
    dsimp only
    split
    · rename_i hlt
      exact hlt
    · exact Nat.sub_lt (List.length_pos.mpr h) one_pos
  · intro env now s a hf
    obtain ⟨s0, heq⟩ := check_timeouts_gates env now s a hf
    rw [heq] at hf ⊢
    rcases body_fire_shape env now s0 with hnone | ⟨s1, index, action, hcb, hne, hfe⟩
    · rw [hf] at hnone
      cases hnone
    · rw [hfe]
      exact fireStage_goal env now _ _ index action s1 hcb hne
  · intro env now s h
    unfold trigger_all_idle_actions
    dsimp only
    rw [if_neg (by simpa [List.isEmpty_iff] using h)]
    dsimp only
    have hp := triggerLoop_pres env (selectBlock (resetBlockName s) s) s
    have hsel := selectBlock_congr (resetBlockName s) _ s hp.1 hp.2.1 hp.2.2.1
    rw [hsel]

theorem queue_index_clamped_witness :
    (qSeven.advance_index).action_index < qSeven.get_active_actions.length ∧
    (Manager.check_timeouts env0 10 sLockedCustom).state.action_index <
      (stateActiveActions (Manager.check_timeouts env0 10 sLockedCustom).state).length ∧
    (trigger_all_idle_actions env0 5 sLockedCustom).1.action_index =
      (selectBlock (resetBlockName sLockedCustom) sLockedCustom).length - 1 :=
  ⟨queue_index_clamped.1 qSeven (by decide),
   queue_index_clamped.2.1 env0 10 sLockedCustom actCustom (by decide),
   queue_index_clamped.2.2 env0 5 sLockedCustom (by decide)⟩



/-- Claim C3 (spec-modelled): when notifications are enabled, the current
stage carries a notification, its original fire time has passed and its
pre-warn was not yet sent, `spec_check_timeouts` marks the pre-warn sent,
spawns the one-shot notify task (notify-send, sleep until
`original_fire_time + notify_seconds_before`, wake the scheduler) and
returns without firing the action. -/
theorem spec_notification_prewarn (env : Env) (now : Nat) (s : MState)
    (cfg : Config) (a : IdleActionBlock) (msg : String)
    (hc : s.cfg = some cfg) (hen : cfg.notify_before_action = true)
    (hp : s.paused = false) (hm : s.manually_paused = false)
    (ha : (stateActiveActions s).get?
        (min s.action_index ((stateActiveActions s).length - 1)) = some a)
    (hskip : (a.kind == IdleAction.lockScreen && s.lock_state.is_locked) = false)
    (hmsg : a.notification = some msg)
    (hdue : specOriginalFireTime (stateActiveActions s) s.last_activity s.debounce
        (min s.action_index ((stateActiveActions s).length - 1)) a ≤ now)
    (hsent : s.notification_sent_for_action ≠
        some (min s.action_index ((stateActiveActions s).length - 1))) :
    spec_check_timeouts env now s =
      { state := { s with
          notification_sent_for_action :=
            some (min s.action_index ((stateActiveActions s).length - 1)),
          pending_notification_task := true }
        fired := none
        effects := [Effect.spawnNotifyTask msg
          (specOriginalFireTime (stateActiveActions s) s.last_activity s.debounce
            (min s.action_index ((stateActiveActions s).length - 1)) a
            + cfg.notify_seconds_before)] } := by
  have hne : (stateActiveActions s).isEmpty = false := by
    rcases h0 : stateActiveActions s with _ | ⟨x, xs⟩
    · rw [h0] at ha
      simp at ha
    · rfl
  have hsentb : (s.notification_sent_for_action ==
      some (min s.action_index ((stateActiveActions s).length - 1))) = false := by
    simpa using hsent
  unfold spec_check_timeouts
  rw [hp, hm]
  try dsimp only
  rw [hne]
  try dsimp only
  rw [ha]
  try dsimp only
  rw [hskip]
  try dsimp only
  rw [hmsg]
  try dsimp only
  rw [hc]
  try dsimp only
  simp only [Option.map, Option.getD]
  simp only [hen, hsentb, decide_eq_true hdue]
  try dsimp only
  rfl

theorem spec_notification_prewarn_witness :
    spec_check_timeouts env0 60 sNotify =
      { state := { sNotify with notification_sent_for_action := some 0,
                                pending_notification_task := true }
        fired := none
        effects := [Effect.spawnNotifyTask "Dimming" 65] } := by
  have h := spec_notification_prewarn env0 60 sNotify cfgNotify actNotify "Dimming"
    rfl rfl rfl rfl (by decide) (by decide) rfl (by decide) (by decide)
  exact h.trans (by decide)

end Stasis
